import Mathlib

/-!
Verification of the `ddns_update.py` dynamic-DNS client against its
specification.  Strings are modelled as `List Char` (the decoded text the
program manipulates); the two outbound curl calls are modelled by their
outcome, `none` standing for any fatal transport failure (network error,
non-success HTTP status, timeout) and `some body` for a successful call
returning the decoded response body.
-/

namespace DdnsUpdate

/-- Characters matched by Python `\d`...`\d` groups in `_IPv4_RE`
(ASCII decimal digits). -/
def isDigit (c : Char) : Bool :=
  decide (48 ≤ c.toNat ∧ c.toNat ≤ 57)

/-- Characters at which Python `str.splitlines` breaks a line:
LF, VT, FF, CR, FS, GS, RS, NEL, LINE SEPARATOR, PARAGRAPH SEPARATOR. -/
def isLineBreak (c : Char) : Bool :=
  decide ((10 ≤ c.toNat ∧ c.toNat ≤ 13) ∨ (28 ≤ c.toNat ∧ c.toNat ≤ 30) ∨
    c.toNat = 133 ∨ c.toNat = 8232 ∨ c.toNat = 8233)

/-- Characters stripped by Python `str.strip()` (Unicode whitespace). -/
def isPySpace (c : Char) : Bool :=
  decide ((9 ≤ c.toNat ∧ c.toNat ≤ 13) ∨ (28 ≤ c.toNat ∧ c.toNat ≤ 32) ∨
    c.toNat = 133 ∨ c.toNat = 160 ∨ c.toNat = 5760 ∨
    (8192 ≤ c.toNat ∧ c.toNat ≤ 8202) ∨ c.toNat = 8232 ∨ c.toNat = 8233 ∨
    c.toNat = 8239 ∨ c.toNat = 8287 ∨ c.toNat = 12288)

/-- Python `s.strip()`: drop leading and trailing whitespace. -/
def strip (s : List Char) : List Char :=
  ((s.dropWhile isPySpace).reverse.dropWhile isPySpace).reverse

/-- Worker for `splitlines`.  The first argument records whether the
previous character was a CR whose line was already emitted, so that a
following LF is swallowed (CRLF is a single line boundary in Python). -/
def slAux : Bool → List Char → List Char → List (List Char)
  | _, [], acc => if acc.isEmpty = true then [] else [acc.reverse]
  | prevCR, ch :: rest, acc =>
    if prevCR = true ∧ ch = '\n' then slAux false rest acc
    else if isLineBreak ch = true then
      acc.reverse :: slAux (decide (ch = '\r')) rest []
    else slAux false rest (ch :: acc)

/-- Python `text.splitlines()`: the list of lines, line boundaries removed,
a CRLF pair counting as one boundary; an unterminated final line is kept
and the empty text yields no lines. -/
def splitlines (s : List Char) : List (List Char) :=
  slAux false s []

/-- Split a string at every `'.'` (the dots are dropped); always returns
one more group than there are dots.  Used to model the anchored regex
`\d{1,3}(\.\d{1,3}){3}` as "exactly four all-digit groups of length 1-3". -/
def splitOnDot : List Char → List (List Char)
  | [] => [[]]
  | c :: rest =>
    if c = '.' then [] :: splitOnDot rest
    else
      match splitOnDot rest with
      | [] => [[c]]
      | g :: gs => (c :: g) :: gs

/-- One regex group `\d{1,3}`: one to three decimal digits. -/
def digitsGroup (g : List Char) : Bool :=
  decide (1 ≤ g.length) && decide (g.length ≤ 3) && g.all isDigit

/-- Model of `_IPv4_RE.fullmatch s` of the source: the whole string is four
dot-separated groups of one to three digits. -/
def ipv4Match (s : List Char) : Bool :=
  match splitOnDot s with
  | [g1, g2, g3, g4] =>
    digitsGroup g1 && digitsGroup g2 && digitsGroup g3 && digitsGroup g4
  | _ => false

/-- Model of `_curl url`: on success the decoded stdout is stripped of surrounding
whitespace and returned; on any failure the process exits (modelled as
`none`). -/
def curl (resp : Option (List Char)) : Option (List Char) :=
  Option.map strip resp

/-- Model of `current_ip()`: fetch via `_curl` and validate with the IPv4 regex;
an invalid body is a fatal exit (modelled as `none`). -/
def current_ip (resp : Option (List Char)) : Option (List Char) :=
  match curl resp with
  | none => none
  | some ip => if ipv4Match ip = true then some ip else none

/-- Model of `stored_ip(file_path)`: `none` for a missing file; otherwise split the
text into lines, demand exactly one line, strip it and validate it. -/
def stored_ip (file : Option (List Char)) : Option (List Char) :=
  match file with
  | none => none
  | some text =>
    match splitlines text with
    | [line] =>
      if ipv4Match (strip line) = true then some (strip line) else none
    | _ => none

/-- Model of `write_ip(file_path, ip)`: the new file content, the address plus one
trailing newline. -/
def write_ip (ip : List Char) : List Char :=
  ip ++ ['\n']

/-- Model of `update_dyndns()`: call `_curl` on the DynDNS URL; the value it goes on
to print is the stripped response body. -/
def update_dyndns (resp : Option (List Char)) : Option (List Char) :=
  curl resp

/-- The stdout line `[INFO] IP unchanged: {cur}`. -/
def unchangedLine (cur : List Char) : List Char :=
  "[INFO] IP unchanged: ".toList ++ cur

/-- The stdout line `[INFO] IP change detected: with prev or a none marker → {cur}`. -/
def changedLine (prev : Option (List Char)) (cur : List Char) : List Char :=
  "[INFO] IP change detected: ".toList ++
    (match prev with
     | none => "<none>".toList
     | some p => if p = [] then "<none>".toList else p) ++
    " → ".toList ++ cur

/-- The stdout line `[INFO] DynDNS response: {response}`. -/
def dynRespLine (response : List Char) : List Char :=
  "[INFO] DynDNS response: ".toList ++ response

/-- The stdout line `[INFO] Stored IP updated.`. -/
def storedLine : List Char :=
  "[INFO] Stored IP updated.".toList

/-- The environment one run of the script observes: the cache file state
(`none` = missing) and the outcomes of the two curl invocations. -/
structure World where
  cacheFile : Option (List Char)
  checkResp : Option (List Char)
  dynResp : Option (List Char)

/-- The observable outcome of one run: process exit status, final cache
file state, whether the update URL was contacted, whether the cache file
was written, and the stdout lines printed. -/
structure RunResult where
  exitCode : Nat
  cacheFile : Option (List Char)
  dynCalled : Bool
  cacheWritten : Bool
  log : List (List Char)

/-- Model of `main()`: fetch and validate the current IP (fatal exit on failure),
read the cached IP, stop if equal, otherwise notify the DynDNS provider
(fatal exit on failure, cache untouched) and persist the new address. -/
def main (w : World) : RunResult :=
  match current_ip w.checkResp with
  | none => ⟨1, w.cacheFile, false, false, []⟩
  | some cur =>
    if stored_ip w.cacheFile = some cur then
      ⟨0, w.cacheFile, false, false, [unchangedLine cur]⟩
    else
      match update_dyndns w.dynResp with
      | none =>
        ⟨1, w.cacheFile, true, false,
          [changedLine (stored_ip w.cacheFile) cur]⟩
      | some response =>
        ⟨0, some (write_ip cur), true, true,
          [changedLine (stored_ip w.cacheFile) cur, dynRespLine response,
            storedLine]⟩

/-- Spec-side reading of one regex group: one to three decimal digits.
Stated from the words of the spec, to be compared with `digitsGroup`. -/
def specGroup (g : List Char) : Prop :=
  1 ≤ g.length ∧ g.length ≤ 3 ∧ ∀ c ∈ g, isDigit c = true

/-- Spec-side reading of the pattern from the words of the spec: the string is
exactly four dot-separated groups of 1-3 decimal digits (anchored
full-match).  To be compared with the source-side `ipv4Match`. -/
def specIPv4Pattern (s : List Char) : Prop :=
  ∃ a b c d, specGroup a ∧ specGroup b ∧ specGroup c ∧ specGroup d ∧
    s = a ++ '.' :: (b ++ '.' :: (c ++ '.' :: d))

/-- Rejoin groups with dots; left inverse of `splitOnDot`. -/
def joinDot : List (List Char) → List Char
  | [] => []
  | [g] => g
  | g :: g2 :: gs => g ++ '.' :: joinDot (g2 :: gs)

/-- Exceptions `file_path.read_text()` can raise besides
FileNotFoundError; the try block of `stored_ip` catches none of them. -/
inductive PyExc where
  | unicodeDecodeError
  | isADirectoryError
  | permissionError

/-- Outcome of `file_path.read_text()` on an arbitrary file state: decoded
UTF-8 text, FileNotFoundError (missing file), or one of the uncaught
exceptions (non-UTF-8 bytes, a directory at the path, no read
permission). -/
inductive ReadResult where
  | content (text : List Char)
  | fileNotFound
  | raised (e : PyExc)

/-- Model of `stored_ip(file_path)` keeping the exception path of the
source: the try block catches only FileNotFoundError around
`read_text()`, so every other exception the read raises propagates out of
`stored_ip` uncaught. -/
def stored_ipExc : ReadResult → Except PyExc (Option (List Char))
  | ReadResult.fileNotFound => Except.ok none
  | ReadResult.raised e => Except.error e
  | ReadResult.content text => Except.ok (stored_ip (some text))

example : splitlines ("abc".toList) = ["abc".toList] := by decide
example : splitlines [] = [] := by decide
example : splitlines ("a\r\nb".toList) = ["a".toList, "b".toList] := by decide
example : splitlines ("\r\n".toList) = [[]] := by decide
example : splitlines ("a\n\nb".toList) = ["a".toList, [], "b".toList] := by
  decide
example : ipv4Match ("203.0.113.5".toList) = true := by decide
example : ipv4Match ("999.999.999.999".toList) = true := by decide
example : ipv4Match ("1.2.3".toList) = false := by decide
example : ipv4Match ("1.2.3.4.5".toList) = false := by decide
example : ipv4Match ("1.2.3.4 ".toList) = false := by decide
example : ipv4Match ("1.2.3.".toList) = false := by decide
example : ipv4Match [] = false := by decide
example : strip (" 1.2.3.4\n".toList) = "1.2.3.4".toList := by decide
example : stored_ip (some ("1.2.3.4\n".toList)) = some ("1.2.3.4".toList) := by
  decide
example : stored_ip (some ("a\nb\n".toList)) = none := by decide
example : stored_ip (some []) = none := by decide
example : stored_ip none = none := by decide

/-! ### Character-class lemmas -/

theorem digit_not_break (c : Char) (h : isDigit c = true) :
    isLineBreak c = false := by
  simp only [isDigit, decide_eq_true_eq] at h
  simp only [isLineBreak, decide_eq_false_iff_not]
  omega

theorem digit_not_space (c : Char) (h : isDigit c = true) :
    isPySpace c = false := by
  simp only [isDigit, decide_eq_true_eq] at h
  simp only [isPySpace, decide_eq_false_iff_not]
  omega

theorem digit_ne_dot (c : Char) (h : isDigit c = true) : c ≠ '.' := by
  intro hc
  rw [hc] at h
  exact absurd h (by decide)

/-! ### `strip` lemmas -/

theorem dropWhile_all_false {p : Char → Bool} (l : List Char)
    (h : ∀ c ∈ l, p c = false) : l.dropWhile p = l := by
  cases l with
  | nil => rfl
  | cons c t => simp [List.dropWhile_cons, h c (List.mem_cons_self c t)]

theorem strip_no_space (s : List Char) (h : ∀ c ∈ s, isPySpace c = false) :
    strip s = s := by
  unfold strip
  rw [dropWhile_all_false s h,
    dropWhile_all_false s.reverse (fun c hc => h c (List.mem_reverse.mp hc)),
    List.reverse_reverse]

/-! ### `splitlines` lemmas -/

theorem slAux_append_newline (l : List Char)
    (h : ∀ c ∈ l, isLineBreak c = false) :
    ∀ acc, slAux false (l ++ ['\n']) acc = [acc.reverse ++ l] := by
  induction l with
  | nil =>
    intro acc
    have hn : isLineBreak '\n' = true := by decide
    simp [slAux, hn]
  | cons c t ih =>
    intro acc
    have hc : isLineBreak c = false := h c (List.mem_cons_self c t)
    simp only [List.cons_append, slAux, false_and, if_false, hc,
      Bool.false_eq_true, if_neg (fun hx : False => hx), List.append_eq]
    rw [ih (fun x hx => h x (List.mem_cons_of_mem c hx)) (c :: acc)]
    simp

theorem splitlines_write (l : List Char)
    (h : ∀ c ∈ l, isLineBreak c = false) :
    splitlines (l ++ ['\n']) = [l] := by
  unfold splitlines
  rw [slAux_append_newline l h []]
  simp

/-! ### `splitOnDot` lemmas -/

theorem splitOnDot_ne_nil (s : List Char) : splitOnDot s ≠ [] := by
  induction s with
  | nil => simp [splitOnDot]
  | cons c rest ih =>
    simp only [splitOnDot]
    split
    · simp
    · cases h : splitOnDot rest with
      | nil => simp
      | cons g gs => simp

theorem joinDot_splitOnDot (s : List Char) : joinDot (splitOnDot s) = s := by
  induction s with
  | nil => rfl
  | cons c rest ih =>
    simp only [splitOnDot]
    split
    · next hc =>
      subst hc
      cases h : splitOnDot rest with
      | nil => exact absurd h (splitOnDot_ne_nil rest)
      | cons g gs =>
        rw [h] at ih
        simpa [joinDot] using ih
    · next hc =>
      cases h : splitOnDot rest with
      | nil => exact absurd h (splitOnDot_ne_nil rest)
      | cons g gs =>
        rw [h] at ih
        cases gs with
        | nil => simpa [joinDot] using ih
        | cons g2 gs2 => simpa [joinDot] using ih

theorem splitOnDot_no_dot (g : List Char) (h : ∀ c ∈ g, c ≠ '.') :
    splitOnDot g = [g] := by
  induction g with
  | nil => rfl
  | cons c t ih =>
    have hc : c ≠ '.' := h c (List.mem_cons_self c t)
    simp only [splitOnDot, if_neg hc]
    rw [ih (fun x hx => h x (List.mem_cons_of_mem c hx))]

theorem splitOnDot_append (g rest : List Char) (h : ∀ c ∈ g, c ≠ '.') :
    splitOnDot (g ++ '.' :: rest) = g :: splitOnDot rest := by
  induction g with
  | nil => simp [splitOnDot]
  | cons c t ih =>
    have hc : c ≠ '.' := h c (List.mem_cons_self c t)
    simp only [List.cons_append, splitOnDot, if_neg hc, List.append_eq]
    rw [ih (fun x hx => h x (List.mem_cons_of_mem c hx))]

/-! ### Regex refinement and consequences -/

theorem digitsGroup_iff (g : List Char) :
    digitsGroup g = true ↔ specGroup g := by
  simp [digitsGroup, specGroup, List.all_eq_true, and_assoc]

theorem specGroup_no_dot {g : List Char} (hg : specGroup g) :
    ∀ c ∈ g, c ≠ '.' :=
  fun c hc => digit_ne_dot c (hg.2.2 c hc)

theorem ipv4Match_iff_spec (s : List Char) :
    ipv4Match s = true ↔ specIPv4Pattern s := by
  constructor
  · intro h
    unfold ipv4Match at h
    obtain ⟨a, b, c, d, e⟩ : ∃ a b c d, splitOnDot s = [a, b, c, d] := by
      rcases e : splitOnDot s with _ | ⟨a, _ | ⟨b, _ | ⟨c, _ | ⟨d, _ | ⟨x, xs⟩⟩⟩⟩⟩ <;>
        rw [e] at h <;> first | exact ⟨_, _, _, _, rfl⟩ | simp at h
    rw [e] at h
    simp only [Bool.and_eq_true] at h
    obtain ⟨⟨⟨ha, hb⟩, hc⟩, hd⟩ := h
    refine ⟨a, b, c, d, (digitsGroup_iff a).mp ha, (digitsGroup_iff b).mp hb,
      (digitsGroup_iff c).mp hc, (digitsGroup_iff d).mp hd, ?_⟩
    have hs := joinDot_splitOnDot s
    rw [e] at hs
    simpa [joinDot] using hs.symm
  · rintro ⟨a, b, c, d, ha, hb, hc, hd, rfl⟩
    unfold ipv4Match
    rw [splitOnDot_append a _ (specGroup_no_dot ha),
      splitOnDot_append b _ (specGroup_no_dot hb),
      splitOnDot_append c _ (specGroup_no_dot hc),
      splitOnDot_no_dot d (specGroup_no_dot hd)]
    simp [digitsGroup_iff, ha, hb, hc, hd]

theorem ipv4_chars (s : List Char) (h : ipv4Match s = true) :
    ∀ c ∈ s, isDigit c = true ∨ c = '.' := by
  obtain ⟨a, b, c, d, ha, hb, hc, hd, rfl⟩ := (ipv4Match_iff_spec s).mp h
  intro x hx
  simp only [List.mem_append, List.mem_cons] at hx
  rcases hx with hx | rfl | hx | rfl | hx | rfl | hx
  · exact Or.inl (ha.2.2 x hx)
  · exact Or.inr rfl
  · exact Or.inl (hb.2.2 x hx)
  · exact Or.inr rfl
  · exact Or.inl (hc.2.2 x hx)
  · exact Or.inr rfl
  · exact Or.inl (hd.2.2 x hx)

theorem ipv4_no_space (s : List Char) (h : ipv4Match s = true) :
    ∀ c ∈ s, isPySpace c = false := by
  intro c hc
  rcases ipv4_chars s h c hc with hd | rfl
  · exact digit_not_space c hd
  · decide

theorem ipv4_no_break (s : List Char) (h : ipv4Match s = true) :
    ∀ c ∈ s, isLineBreak c = false := by
  intro c hc
  rcases ipv4_chars s h c hc with hd | rfl
  · exact digit_not_break c hd
  · decide

/-! ### Cache round trip -/

theorem stored_ip_write_ip (addr : List Char) (hv : ipv4Match addr = true) :
    stored_ip (some (write_ip addr)) = some addr := by
  have hsplit : splitlines (write_ip addr) = [addr] :=
    splitlines_write addr (ipv4_no_break addr hv)
  have hstrip : strip addr = addr := strip_no_space addr (ipv4_no_space addr hv)
  simp [stored_ip, hsplit, hstrip, hv]

/-! ### `stored_ip` characterization -/

theorem stored_ip_some_iff (f : Option (List Char)) (ip : List Char) :
    stored_ip f = some ip ↔
      ∃ text line, f = some text ∧ splitlines text = [line] ∧
        ipv4Match (strip line) = true ∧ ip = strip line := by
  cases f with
  | none => simp [stored_ip]
  | some text =>
    simp only [stored_ip, Option.some.injEq]
    cases e : splitlines text with
    | nil => simp [e]
    | cons line rest =>
      cases rest with
      | nil =>
        by_cases hv : ipv4Match (strip line) = true
        · simp only [hv, if_true, Option.some.injEq]
          constructor
          · intro h
            exact ⟨text, line, rfl, e, hv, h.symm⟩
          · rintro ⟨text2, line2, h2, hsp, hv2, rfl⟩
            obtain rfl : text = text2 := by simpa using h2
            rw [e] at hsp
            obtain rfl : line = line2 := by simpa using hsp
            rfl
        · simp only [hv, if_false]
          constructor
          · intro h
            exact absurd h (by simp)
          · rintro ⟨text2, line2, h2, hsp, hv2, rfl⟩
            obtain rfl : text = text2 := by simpa using h2
            rw [e] at hsp
            obtain rfl : line = line2 := by simpa using hsp
            exact absurd hv2 hv
      | cons l2 rest2 =>
        simp only
        constructor
        · intro h
          exact absurd h (by simp)
        · rintro ⟨text2, line2, h2, hsp, hv2, rfl⟩
          obtain rfl : text = text2 := by simpa using h2
          rw [e] at hsp
          simp at hsp

/-! ### Claim theorems -/

/-- Counterexample to C1 as stated: a cache file holding non-UTF-8 bytes
makes `read_text()` raise UnicodeDecodeError, which the try block of
`stored_ip` (catching only FileNotFoundError) does not catch — for that
file state the read does NOT return, refuting totality over every
possible file state. -/
theorem storedIp_raises_cex :
    stored_ipExc (ReadResult.raised PyExc.unicodeDecodeError) =
      Except.error PyExc.unicodeDecodeError := rfl

/-- C1 (amended): the cache read returns without raising for every file
state whose read yields FileNotFoundError or decoded text; there it
returns Absent for a missing file, an empty file, a file of two or more
lines, or a single line failing IPv4 validation after trimming, and the
trimmed line when the file holds exactly one syntactically valid line.
Any other exception of the read propagates uncaught. -/
theorem storedIp_total_on_decoded :
    stored_ipExc ReadResult.fileNotFound = Except.ok none ∧
    (∀ text, ∃ v, stored_ipExc (ReadResult.content text) = Except.ok v) ∧
    (∀ text, splitlines text = [] →
        stored_ipExc (ReadResult.content text) = Except.ok none) ∧
    (∀ text l1 l2 ls, splitlines text = l1 :: l2 :: ls →
        stored_ipExc (ReadResult.content text) = Except.ok none) ∧
    (∀ text line, splitlines text = [line] →
        ipv4Match (strip line) = false →
        stored_ipExc (ReadResult.content text) = Except.ok none) ∧
    (∀ text line, splitlines text = [line] →
        ipv4Match (strip line) = true →
        stored_ipExc (ReadResult.content text) =
          Except.ok (some (strip line))) ∧
    (∀ f ip, stored_ip f = some ip ↔
        ∃ text line, f = some text ∧ splitlines text = [line] ∧
          ipv4Match (strip line) = true ∧ ip = strip line) := by
  refine ⟨rfl, ?_, ?_, ?_, ?_, ?_, stored_ip_some_iff⟩
  · intro text
    exact ⟨stored_ip (some text), rfl⟩
  · intro text h
    simp [stored_ipExc, stored_ip, h]
  · intro text l1 l2 ls h
    simp [stored_ipExc, stored_ip, h]
  · intro text line h hv
    simp [stored_ipExc, stored_ip, h, hv]
  · intro text line h hv
    simp [stored_ipExc, stored_ip, h, hv]

/-- Witness for C1 (amended) at concrete file states: empty file, two-line
file, single invalid line, and a valid line with surrounding
whitespace. -/
theorem storedIp_total_on_decoded_w :
    stored_ipExc (ReadResult.content []) = Except.ok none ∧
    stored_ipExc
        (ReadResult.content ("203.0.113.5\n198.51.100.2\n".toList)) =
      Except.ok none ∧
    stored_ipExc (ReadResult.content ("not-an-ip\n".toList)) =
      Except.ok none ∧
    stored_ipExc (ReadResult.content (" 203.0.113.5 \n".toList)) =
      Except.ok (some (strip (" 203.0.113.5 ".toList))) :=
  ⟨storedIp_total_on_decoded.2.2.1 [] (by decide),
   storedIp_total_on_decoded.2.2.2.1 ("203.0.113.5\n198.51.100.2\n".toList)
     ("203.0.113.5".toList) ("198.51.100.2".toList) [] (by decide),
   storedIp_total_on_decoded.2.2.2.2.1 ("not-an-ip\n".toList)
     ("not-an-ip".toList) (by decide) (by decide),
   storedIp_total_on_decoded.2.2.2.2.2.1 (" 203.0.113.5 \n".toList)
     (" 203.0.113.5 ".toList) (by decide) (by decide)⟩

/-- C2: the validation of the source `ipv4Match` (the regex
`\d{1,3}(\.\d{1,3}){3}` under `fullmatch`) succeeds on exactly the strings
the pattern of the spec describes: four dot-separated groups of 1-3 decimal
digits, anchored full-match; it fails on every other string. -/
theorem validate_iff_specPattern (s : List Char) :
    ipv4Match s = true ↔ specIPv4Pattern s :=
  ipv4Match_iff_spec s

/-- C3: round trip — reading the cache right after writing a syntactically
valid address returns exactly that address. -/
theorem write_then_load_roundtrip (addr : List Char)
    (hv : ipv4Match addr = true) :
    stored_ip (some (write_ip addr)) = some addr :=
  stored_ip_write_ip addr hv

/-- Witness for C3 at the concrete address 203.0.113.5. -/
theorem write_then_load_roundtrip_w :
    stored_ip (some (write_ip ("203.0.113.5".toList))) =
      some ("203.0.113.5".toList) :=
  write_then_load_roundtrip ("203.0.113.5".toList) (by decide)

/-- Counterexample to C4 as stated: with the cache absent and a valid
fetched address, but the update-endpoint call failing, the update endpoint
is contacted yet the cache file afterwards does NOT contain the address
plus newline (the run dies before the write), so the unconditional claim
is false. -/
theorem changedAbsent_cex :
    stored_ip ((⟨none, some ("203.0.113.5".toList), none⟩ :
        World).cacheFile) = none ∧
    ipv4Match (strip ("203.0.113.5".toList)) = true ∧
    (main ⟨none, some ("203.0.113.5".toList), none⟩).dynCalled = true ∧
    (main ⟨none, some ("203.0.113.5".toList), none⟩).cacheFile ≠
      some ("203.0.113.5\n".toList) := by decide

/-- C4 (amended): with the cache absent and a valid fetched address, the
comparison never finds equality, so the CHANGED branch fires and the
update endpoint is called whatever the outcome of that call; when the
update-endpoint call succeeds the cache file afterwards contains exactly
the address followed by one newline and the run exits 0. -/
theorem changedAbsent_updates (f dyn : Option (List Char))
    (body : List Char)
    (hprev : stored_ip f = none)
    (hv : ipv4Match (strip body) = true) :
    (main ⟨f, some body, dyn⟩).dynCalled = true ∧
    (∀ d, dyn = some d →
      (main ⟨f, some body, dyn⟩).cacheFile =
        some (strip body ++ ['\n']) ∧
      (main ⟨f, some body, dyn⟩).exitCode = 0) := by
  constructor
  · cases dyn with
    | none => simp [main, current_ip, curl, update_dyndns, hv, hprev]
    | some d => simp [main, current_ip, curl, update_dyndns, hv, hprev]
  · rintro d rfl
    constructor <;>
      simp [main, current_ip, curl, update_dyndns, write_ip, hv, hprev]

/-- Witness for C4 (amended) at concrete absent-cache runs: the endpoint
is contacted even when its call fails, and a successful call yields the
written cache file and exit 0. -/
theorem changedAbsent_updates_w :
    (main ⟨none, some ("203.0.113.5".toList), none⟩).dynCalled = true ∧
    (main ⟨none, some ("203.0.113.5".toList),
        some ("good".toList)⟩).cacheFile =
      some (strip ("203.0.113.5".toList) ++ ['\n']) ∧
    (main ⟨none, some ("203.0.113.5".toList),
        some ("good".toList)⟩).exitCode = 0 :=
  ⟨(changedAbsent_updates none none ("203.0.113.5".toList)
      (by decide) (by decide)).1,
   ((changedAbsent_updates none (some ("good".toList))
      ("203.0.113.5".toList) (by decide) (by decide)).2
      ("good".toList) rfl).1,
   ((changedAbsent_updates none (some ("good".toList))
      ("203.0.113.5".toList) (by decide) (by decide)).2
      ("good".toList) rfl).2⟩

/-- C5: when the fetched address equals the cached one the run takes the
UNCHANGED branch: no call to the update URL, no write, cache file content
unchanged, exit status 0 — for any state of the update endpoint. -/
theorem unchanged_frame (f dyn : Option (List Char)) (body : List Char)
    (hv : ipv4Match (strip body) = true)
    (hprev : stored_ip f = some (strip body)) :
    (main ⟨f, some body, dyn⟩).dynCalled = false ∧
    (main ⟨f, some body, dyn⟩).cacheFile = f ∧
    (main ⟨f, some body, dyn⟩).cacheWritten = false ∧
    (main ⟨f, some body, dyn⟩).exitCode = 0 := by
  refine ⟨?_, ?_, ?_, ?_⟩ <;> simp [main, current_ip, curl, hv, hprev]

/-- Witness for C5: cached and fetched address both 203.0.113.5, the
update endpoint even unreachable. -/
theorem unchanged_frame_w :
    (main ⟨some ("203.0.113.5\n".toList), some ("203.0.113.5\n".toList),
        none⟩).dynCalled = false ∧
    (main ⟨some ("203.0.113.5\n".toList), some ("203.0.113.5\n".toList),
        none⟩).cacheFile = some ("203.0.113.5\n".toList) ∧
    (main ⟨some ("203.0.113.5\n".toList), some ("203.0.113.5\n".toList),
        none⟩).cacheWritten = false ∧
    (main ⟨some ("203.0.113.5\n".toList), some ("203.0.113.5\n".toList),
        none⟩).exitCode = 0 :=
  unchanged_frame (some ("203.0.113.5\n".toList)) none
    ("203.0.113.5\n".toList) (by decide) (by decide)

/-- C6: on a failed fetch, a malformed fetched body, or a failed
update-endpoint call, the run exits with a non-zero status, the cache file
keeps its prior content and no write happens; moreover on fetch
failure/malformation this holds for every cache state with the update
endpoint never contacted (the run dies before the comparison). -/
theorem fatal_preserves_cache (w : World)
    (h : w.checkResp = none ∨
      (∃ b, w.checkResp = some b ∧ ipv4Match (strip b) = false) ∨
      (∃ b, w.checkResp = some b ∧ ipv4Match (strip b) = true ∧
        stored_ip w.cacheFile ≠ some (strip b) ∧ w.dynResp = none)) :
    ((main w).exitCode ≠ 0 ∧ (main w).cacheFile = w.cacheFile ∧
      (main w).cacheWritten = false) ∧
    ((w.checkResp = none ∨
        (∃ b, w.checkResp = some b ∧ ipv4Match (strip b) = false)) →
      ∀ g, (main {w with cacheFile := g}).exitCode ≠ 0 ∧
        (main {w with cacheFile := g}).cacheFile = g ∧
        (main {w with cacheFile := g}).dynCalled = false) := by
  constructor
  · rcases h with h | ⟨b, hb, hv⟩ | ⟨b, hb, hv, hne, hd⟩
    · refine ⟨?_, ?_, ?_⟩ <;> simp [main, current_ip, curl, h]
    · refine ⟨?_, ?_, ?_⟩ <;> simp [main, current_ip, curl, hb, hv]
    · refine ⟨?_, ?_, ?_⟩ <;>
        simp [main, current_ip, curl, update_dyndns, hb, hv, hne, hd]
  · rintro (h2 | ⟨b, hb, hv⟩) g
    · refine ⟨?_, ?_, ?_⟩ <;> simp [main, current_ip, curl, h2]
    · refine ⟨?_, ?_, ?_⟩ <;> simp [main, current_ip, curl, hb, hv]

/-- Witness for C6 at a concrete run whose fetch returns a malformed
body. -/
theorem fatal_preserves_cache_w :
    ((main ⟨some ("203.0.113.5\n".toList), some ("not-an-ip".toList),
        none⟩).exitCode ≠ 0 ∧
      (main ⟨some ("203.0.113.5\n".toList), some ("not-an-ip".toList),
        none⟩).cacheFile = (⟨some ("203.0.113.5\n".toList),
          some ("not-an-ip".toList), none⟩ : World).cacheFile ∧
      (main ⟨some ("203.0.113.5\n".toList), some ("not-an-ip".toList),
        none⟩).cacheWritten = false) ∧
    (((⟨some ("203.0.113.5\n".toList), some ("not-an-ip".toList), none⟩ :
          World).checkResp = none ∨
        (∃ b, (⟨some ("203.0.113.5\n".toList), some ("not-an-ip".toList),
          none⟩ : World).checkResp = some b ∧
          ipv4Match (strip b) = false)) →
      ∀ g, (main {(⟨some ("203.0.113.5\n".toList),
          some ("not-an-ip".toList), none⟩ : World) with
            cacheFile := g}).exitCode ≠ 0 ∧
        (main {(⟨some ("203.0.113.5\n".toList),
          some ("not-an-ip".toList), none⟩ : World) with
            cacheFile := g}).cacheFile = g ∧
        (main {(⟨some ("203.0.113.5\n".toList),
          some ("not-an-ip".toList), none⟩ : World) with
            cacheFile := g}).dynCalled = false) :=
  fatal_preserves_cache
    ⟨some ("203.0.113.5\n".toList), some ("not-an-ip".toList), none⟩
    (Or.inr (Or.inl ⟨"not-an-ip".toList, rfl, by decide⟩))

/-- Counterexample to C7 as stated: a pair of successive runs with an
unchanged remote address in which the first update-endpoint call fails —
the first run contacts the endpoint but dies before the write, so the
second run takes the CHANGED branch again: the trigger fires twice in
total and the cache write happens on the second run, not the first. -/
theorem runs_idempotent_cex :
    (main ⟨none, some ("203.0.113.5".toList), none⟩).dynCalled = true ∧
    (main ⟨none, some ("203.0.113.5".toList), none⟩).cacheWritten =
      false ∧
    (main ⟨(main ⟨none, some ("203.0.113.5".toList), none⟩).cacheFile,
        some ("203.0.113.5".toList), some ("ok".toList)⟩).dynCalled =
      true ∧
    (main ⟨(main ⟨none, some ("203.0.113.5".toList), none⟩).cacheFile,
        some ("203.0.113.5".toList),
        some ("ok".toList)⟩).cacheWritten = true := by decide

/-- C7 (amended): two successive runs with an unchanged remote address, in
which the first update-endpoint call succeeds, trigger the update endpoint
exactly once in total — the first run calls it and writes the cache, the
second run (reading the file the first one wrote) takes the UNCHANGED
branch with no call and no write. -/
theorem runs_idempotent (f0 : Option (List Char)) (body d1 d2 : List Char)
    (hv : ipv4Match (strip body) = true)
    (hc : stored_ip f0 ≠ some (strip body)) :
    (main ⟨f0, some body, some d1⟩).dynCalled = true ∧
    (main ⟨f0, some body, some d1⟩).cacheWritten = true ∧
    (main ⟨(main ⟨f0, some body, some d1⟩).cacheFile, some body,
        some d2⟩).dynCalled = false ∧
    (main ⟨(main ⟨f0, some body, some d1⟩).cacheFile, some body,
        some d2⟩).cacheWritten = false ∧
    (main ⟨(main ⟨f0, some body, some d1⟩).cacheFile, some body,
        some d2⟩).exitCode = 0 := by
  have hrt : stored_ip (some (write_ip (strip body))) = some (strip body) :=
    stored_ip_write_ip (strip body) hv
  have h1 : (main ⟨f0, some body, some d1⟩).cacheFile =
      some (write_ip (strip body)) := by
    simp [main, current_ip, curl, update_dyndns, hv, hc]
  refine ⟨?_, ?_, ?_, ?_, ?_⟩
  · simp [main, current_ip, curl, update_dyndns, hv, hc]
  · simp [main, current_ip, curl, update_dyndns, hv, hc]
  · rw [h1]
    simp [main, current_ip, curl, hrt, hv]
  · rw [h1]
    simp [main, current_ip, curl, hrt, hv]
  · rw [h1]
    simp [main, current_ip, curl, hrt, hv]

/-- Witness for C7: first run from an absent cache, then a second run on
the file the first one wrote. -/
theorem runs_idempotent_w :
    (main ⟨none, some ("203.0.113.5".toList),
        some ("ok1".toList)⟩).dynCalled = true ∧
    (main ⟨none, some ("203.0.113.5".toList),
        some ("ok1".toList)⟩).cacheWritten = true ∧
    (main ⟨(main ⟨none, some ("203.0.113.5".toList),
        some ("ok1".toList)⟩).cacheFile, some ("203.0.113.5".toList),
        some ("ok2".toList)⟩).dynCalled = false ∧
    (main ⟨(main ⟨none, some ("203.0.113.5".toList),
        some ("ok1".toList)⟩).cacheFile, some ("203.0.113.5".toList),
        some ("ok2".toList)⟩).cacheWritten = false ∧
    (main ⟨(main ⟨none, some ("203.0.113.5".toList),
        some ("ok1".toList)⟩).cacheFile, some ("203.0.113.5".toList),
        some ("ok2".toList)⟩).exitCode = 0 :=
  runs_idempotent none ("203.0.113.5".toList) ("ok1".toList)
    ("ok2".toList) (by decide) (by decide)

/-- Counterexample to C8 as stated: a successful CHANGED run whose
update endpoint returns a body with a trailing newline logs the stripped
body, not the raw one — the raw response text is modified before being
returned and logged. -/
theorem dynLog_raw_cex :
    (main ⟨none, some ("203.0.113.5".toList),
        some ("good\n".toList)⟩).log =
      [changedLine none ("203.0.113.5".toList),
        dynRespLine ("good".toList), storedLine] ∧
    update_dyndns (some ("good\n".toList)) = some ("good".toList) ∧
    ("good".toList : List Char) ≠ "good\n".toList := by decide

/-- C8 (amended): on a CHANGED run whose update-endpoint call succeeds,
the update trigger returns the response body stripped of surrounding
whitespace, and exactly that stripped text is logged (embedded unchanged
in the DynDNS response line). -/
theorem dynLog_stripped (w : World) (body d : List Char)
    (hf : w.checkResp = some body) (hv : ipv4Match (strip body) = true)
    (hc : stored_ip w.cacheFile ≠ some (strip body))
    (hd : w.dynResp = some d) :
    update_dyndns w.dynResp = some (strip d) ∧
    (main w).log = [changedLine (stored_ip w.cacheFile) (strip body),
      dynRespLine (strip d), storedLine] := by
  constructor
  · simp [update_dyndns, curl, hd]
  · simp [main, current_ip, curl, update_dyndns, hf, hv, hc, hd]

/-- Witness for C8 (amended) at a concrete run. -/
theorem dynLog_stripped_w :
    update_dyndns ((⟨none, some ("203.0.113.5".toList),
        some (" good \n".toList)⟩ : World).dynResp) =
      some (strip (" good \n".toList)) ∧
    (main ⟨none, some ("203.0.113.5".toList),
        some (" good \n".toList)⟩).log =
      [changedLine (stored_ip (none : Option (List Char)))
          (strip ("203.0.113.5".toList)),
        dynRespLine (strip (" good \n".toList)), storedLine] :=
  dynLog_stripped ⟨none, some ("203.0.113.5".toList),
      some (" good \n".toList)⟩ ("203.0.113.5".toList)
    (" good \n".toList) rfl (by decide) (by decide) rfl

/-- C9: every non-`none` value `stored_ip` returns full-matches the IPv4
pattern, carries no surrounding whitespace (stripping it is the identity)
and is exactly the stripped single line of the file. -/
theorem storedIp_valid_invariant (f : Option (List Char)) (ip : List Char)
    (h : stored_ip f = some ip) :
    ipv4Match ip = true ∧ strip ip = ip ∧
      ∃ text line, f = some text ∧ splitlines text = [line] ∧
        ip = strip line := by
  obtain ⟨text, line, hf, hsp, hv, rfl⟩ := (stored_ip_some_iff f ip).mp h
  exact ⟨hv, strip_no_space _ (ipv4_no_space _ hv), text, line, hf, hsp, rfl⟩

/-- Witness for C9 at a concrete cache file. -/
theorem storedIp_valid_invariant_w :
    ipv4Match ("1.2.3.4".toList) = true ∧
    strip ("1.2.3.4".toList) = "1.2.3.4".toList ∧
    ∃ text line, (some ("1.2.3.4\n".toList) : Option (List Char)) =
        some text ∧ splitlines text = [line] ∧
      "1.2.3.4".toList = strip line :=
  storedIp_valid_invariant (some ("1.2.3.4\n".toList))
    ("1.2.3.4".toList) (by decide)

/-- C10: on a CHANGED run with a successful update call, the final cache
file and the exit status are identical for any two response bodies the
update endpoint may return — the DynDNS response influences only the
log. -/
theorem dyn_noninterference (w : World) (body b1 b2 : List Char)
    (hf : w.checkResp = some body) (hv : ipv4Match (strip body) = true)
    (hc : stored_ip w.cacheFile ≠ some (strip body)) :
    (main {w with dynResp := some b1}).cacheFile =
      (main {w with dynResp := some b2}).cacheFile ∧
    (main {w with dynResp := some b1}).exitCode =
      (main {w with dynResp := some b2}).exitCode := by
  constructor <;> simp [main, current_ip, curl, update_dyndns, hf, hv, hc]

/-- Witness for C10 at two concrete response bodies. -/
theorem dyn_noninterference_w :
    (main {(⟨none, some ("203.0.113.5".toList), none⟩ : World) with
        dynResp := some ("good".toList)}).cacheFile =
      (main {(⟨none, some ("203.0.113.5".toList), none⟩ : World) with
        dynResp := some ("911".toList)}).cacheFile ∧
    (main {(⟨none, some ("203.0.113.5".toList), none⟩ : World) with
        dynResp := some ("good".toList)}).exitCode =
      (main {(⟨none, some ("203.0.113.5".toList), none⟩ : World) with
        dynResp := some ("911".toList)}).exitCode :=
  dyn_noninterference ⟨none, some ("203.0.113.5".toList), none⟩
    ("203.0.113.5".toList) ("good".toList) ("911".toList) rfl
    (by decide) (by decide)

end DdnsUpdate
